import Mathlib

/-!
Shallow embedding of the Trimify queue/appointment core
(src/shared/schema.ts: Drizzle schema + `DatabaseStorage` + Express routes,
and the client queue/booking logic in src/unnamed/part_004).

Conventions of the embedding:
* Database tables are Lean lists of row structures; a Drizzle
  `update ... where eq(t.id, id)` is a `List.map` that rewrites the matching
  rows, `delete ... where` is a `List.filter`, `insert ... returning` appends
  the new row (the serial id is passed in as `newId`).
* Timestamps are `Int` milliseconds since the epoch (`new Date()` values are
  threaded in as a `now`/`today` parameter).
* `decimal` currency columns are `Int` scaled values (cents); `integer`
  columns are `Int`; nullable columns are `Option`.
-/

/-- Row of the `queue` table (src/shared/schema.ts, `pgTable "queue"`). -/
structure QueueRow where
  id : Nat
  userId : String
  customerId : Int
  serviceId : Int
  barber : Option String
  position : Int
  status : String
  estimatedWaitTime : Option Int
  joinedAt : Int
  updatedAt : Int
deriving Repr, DecidableEq

/-- Payload accepted by `insertQueueSchema` =
`createInsertSchema(queue).omit({id, userId, joinedAt, updatedAt})`.
The generated zod schema carries only the column types: `position` is any
integer (no range refinement), `status` and `estimatedWaitTime` are optional
(they have database defaults / are nullable). -/
structure InsertQueue where
  customerId : Int
  serviceId : Int
  barber : Option String
  position : Int
  status : Option String
  estimatedWaitTime : Option Int
deriving Repr, DecidableEq

/-- Row of the `appointments` table. -/
structure AppointmentRow where
  id : Nat
  userId : String
  customerId : Int
  serviceId : Int
  barber : Option String
  startTime : Int
  endTime : Int
  status : String
  notes : Option String
  updatedAt : Int
deriving Repr, DecidableEq

/-- Payload accepted by `insertAppointmentSchema`. -/
structure InsertAppointment where
  customerId : Int
  serviceId : Int
  barber : Option String
  startTime : Int
  endTime : Int
  status : Option String
  notes : Option String
deriving Repr, DecidableEq

/-- Partial patch accepted by `insertAppointmentSchema.partial()`
(route `PUT /api/appointments/:id`): every field optional; `none` means
"field absent from the request body". -/
structure AppointmentPatch where
  customerId : Option Int := none
  serviceId : Option Int := none
  barber : Option (Option String) := none
  startTime : Option Int := none
  endTime : Option Int := none
  status : Option String := none
  notes : Option (Option String) := none
deriving Repr, DecidableEq

/-- Row of the `services` table. -/
structure ServiceRow where
  id : Int
  userId : String
  name : String
  price : Int
  duration : Int
  isActive : Bool
deriving Repr, DecidableEq

/-- Row of the `transactions` table. -/
structure TransactionRow where
  id : Nat
  userId : String
  customerId : Option Int
  appointmentId : Option Int
  total : Int
  paymentMethod : String
  status : String
  createdAt : Int
deriving Repr, DecidableEq

/-! ## Storage operations (`DatabaseStorage`, src/shared/schema.ts) -/

/-- `addToQueue(queueItem, userId)`: inserts `{...queueItem, userId}` and
returns the new row. The `status` column defaults to `"waiting"` and
`joinedAt`/`updatedAt` default to `now()` when the payload omits them. -/
def addToQueue (db : List QueueRow) (queueItem : InsertQueue) (userId : String)
    (newId : Nat) (now : Int) : List QueueRow × QueueRow :=
  let newQueueItem : QueueRow :=
    { id := newId
      userId := userId
      customerId := queueItem.customerId
      serviceId := queueItem.serviceId
      barber := queueItem.barber
      position := queueItem.position
      status := queueItem.status.getD "waiting"
      estimatedWaitTime := queueItem.estimatedWaitTime
      joinedAt := now
      updatedAt := now }
  (db ++ [newQueueItem], newQueueItem)

/-- `updateQueuePosition(id, position)`:
`update(queue).set({ position, updatedAt: new Date() }).where(eq(queue.id, id))`.
The `where` clause mentions only the row id — no `userId` condition, no range
check on `position`, and no shifting of any other row. -/
def updateQueuePosition (db : List QueueRow) (id : Nat) (position : Int)
    (now : Int) : List QueueRow :=
  db.map (fun r => if r.id == id then { r with position := position, updatedAt := now } else r)

/-- `updateQueueStatus(id, status)`:
`update(queue).set({ status, updatedAt: new Date() }).where(eq(queue.id, id))`.
Stores the requested status string verbatim, whatever it is. -/
def updateQueueStatus (db : List QueueRow) (id : Nat) (status : String)
    (now : Int) : List QueueRow :=
  db.map (fun r => if r.id == id then { r with status := status, updatedAt := now } else r)

/-- `removeFromQueue(id)`: `delete(queue).where(eq(queue.id, id))`. -/
def removeFromQueue (db : List QueueRow) (id : Nat) : List QueueRow :=
  db.filter (fun r => !(r.id == id))

/-- Insertion step of the sort used to embed `orderBy(asc(queue.position))`. -/
def insertByPosition (r : QueueRow) : List QueueRow → List QueueRow
  | [] => [r]
  | x :: xs => if r.position ≤ x.position then r :: x :: xs else x :: insertByPosition r xs

/-- Stable sort by ascending `position` (embeds SQL `ORDER BY position ASC`). -/
def sortByPosition : List QueueRow → List QueueRow
  | [] => []
  | x :: xs => insertByPosition x (sortByPosition xs)

/-- `getQueue(userId)`: all of the tenant's queue rows (every status),
ordered by ascending position. -/
def getQueue (db : List QueueRow) (userId : String) : List QueueRow :=
  sortByPosition (db.filter (fun r => r.userId == userId))

/-- `createAppointment(appointment, userId)`: inserts `{...appointment, userId}`
verbatim and returns the new row (`status` defaults to `"scheduled"`). -/
def createAppointment (db : List AppointmentRow) (appointment : InsertAppointment)
    (userId : String) (newId : Nat) (now : Int) : List AppointmentRow × AppointmentRow :=
  let newAppointment : AppointmentRow :=
    { id := newId
      userId := userId
      customerId := appointment.customerId
      serviceId := appointment.serviceId
      barber := appointment.barber
      startTime := appointment.startTime
      endTime := appointment.endTime
      status := appointment.status.getD "scheduled"
      notes := appointment.notes
      updatedAt := now }
  (db ++ [newAppointment], newAppointment)

/-- Apply a partial patch to a row, as the spread
`{ ...appointment, updatedAt: new Date() }` does in `updateAppointment`. -/
def applyAppointmentPatch (r : AppointmentRow) (p : AppointmentPatch) (now : Int) :
    AppointmentRow :=
  { r with
    customerId := p.customerId.getD r.customerId
    serviceId := p.serviceId.getD r.serviceId
    barber := p.barber.getD r.barber
    startTime := p.startTime.getD r.startTime
    endTime := p.endTime.getD r.endTime
    status := p.status.getD r.status
    notes := p.notes.getD r.notes
    updatedAt := now }

/-- `updateAppointment(id, appointment)`:
`update(appointments).set({...appointment, updatedAt}).where(eq(appointments.id, id))`.
Again keyed by row id only; any field, `status` included, is stored verbatim. -/
def updateAppointment (db : List AppointmentRow) (id : Nat) (p : AppointmentPatch)
    (now : Int) : List AppointmentRow :=
  db.map (fun r => if r.id == id then applyAppointmentPatch r p now else r)

/-- `deleteAppointment(id)`: `delete(appointments).where(eq(appointments.id, id))`. -/
def deleteAppointment (db : List AppointmentRow) (id : Nat) : List AppointmentRow :=
  db.filter (fun r => !(r.id == id))

/-! ## Route layer (registerRoutes, src/shared/schema.ts)

Each mutating queue/appointment route authenticates the caller and derives
`userId = req.user.claims.sub`, but the id-keyed storage calls below receive
only the row id parsed from the URL — the caller's tenant is not passed on. -/

/-- `PUT /api/queue/:id/position`: parses `queueId` and `position` from the
request and calls `storage.updateQueuePosition(queueId, position)`. The
authenticated caller's `userId` is in scope but unused by the mutation. -/
def putQueuePosition (db : List QueueRow) (_userId : String) (queueId : Nat)
    (position : Int) (now : Int) : List QueueRow :=
  updateQueuePosition db queueId position now

/-- `PUT /api/queue/:id/status`: calls `storage.updateQueueStatus(queueId, status)`
with the raw `status` string from the request body. -/
def putQueueStatus (db : List QueueRow) (_userId : String) (queueId : Nat)
    (status : String) (now : Int) : List QueueRow :=
  updateQueueStatus db queueId status now

/-- `DELETE /api/queue/:id`: calls `storage.removeFromQueue(queueId)`. -/
def deleteQueueRoute (db : List QueueRow) (_userId : String) (queueId : Nat) :
    List QueueRow :=
  removeFromQueue db queueId

/-- `PUT /api/appointments/:id` with body `{ status }` (the status-change
request the appointments page issues): a partial patch carrying only `status`. -/
def updateAppointmentStatus (db : List AppointmentRow) (id : Nat) (status : String)
    (now : Int) : List AppointmentRow :=
  updateAppointment db id { status := some status } now

/-! ## Client-side queue admission logic (src/unnamed/part_004) -/

/-- Position assigned to a walk-in:
`position: queueData?.length ? queueData.length + 1 : 1`, where `queueData`
is the result of `GET /api/queue` — all of the tenant's entries, regardless
of status. (The same expression appears in the form's `defaultValues` and in
`onSubmit`; in `onSubmit` the surrounding `const queueData = {...}` object
shadows the query result in its own initializer.) -/
def walkInPosition (queueData : List QueueRow) : Int :=
  if queueData.length != 0 then (queueData.length : Int) + 1 else 1

/-- `calculateEstimatedWaitTime(serviceId)`:
`serviceDuration = service?.duration || 30` (JS `||`: a missing service or a
zero duration falls back to 30), `queueLength` = number of entries with
status `'waiting'`, result `queueLength * serviceDuration`. -/
def calculateEstimatedWaitTime (services : List ServiceRow) (queueData : List QueueRow)
    (serviceId : Int) : Int :=
  let serviceDuration : Int :=
    match services.find? (fun s => s.id == serviceId) with
    | some service => if service.duration == 0 then 30 else service.duration
    | none => 30
  let queueLength : Int := ((queueData.filter (fun item => item.status == "waiting")).length : Int)
  queueLength * serviceDuration

/-- `handleStartTimeChange` / `handleServiceChange`:
`end = new Date(start.getTime() + service.duration * 60000)`; the derived end
time the client writes into the form's `endTime` field, in ms. -/
def derivedEndTime (startTime : Int) (duration : Int) : Int :=
  startTime + duration * 60000

/-! ## Aggregation (`getDashboardStats`, src/shared/schema.ts) -/

/-- One day in milliseconds: `tomorrow = today; tomorrow.setDate(date + 1)`. -/
def msPerDay : Int := 86400000

/-- Result shape of `getDashboardStats`. -/
structure DashboardStats where
  todayQueueCount : Nat
  todayAppointmentCount : Nat
  averageWaitTime : Int
  todayRevenue : Int
deriving Repr, DecidableEq

/-- `Math.round(a / b)` for the integer sum `a` and positive count `b`
(JS rounds half toward positive infinity: `floor(x + 1/2)`). -/
def jsRoundDiv (a : Int) (b : Nat) : Int :=
  Int.fdiv (2 * a + b) (2 * b)

/-- `getDashboardStats(userId)`. `today` is midnight of the current day and
`tomorrow = today + 1 day`. Note the filters actually written in the source:
* queue count: `where eq(queue.userId, userId)` — not windowed at all;
* appointment count and today's transactions:
  `and(eq(userId), eq(ts, today), eq(ts, tomorrow))` — the timestamp is
  required to *equal both* window endpoints simultaneously;
* average wait: mean of `estimatedWaitTime || 0` over all the tenant's
  queue rows, `Math.round`ed, `0` when there are none;
* revenue: sum of `Number(total)` over the rows the transaction filter kept. -/
def getDashboardStats (queueDb : List QueueRow) (apptDb : List AppointmentRow)
    (txDb : List TransactionRow) (userId : String) (today : Int) : DashboardStats :=
  let tomorrow := today + msPerDay
  let queueCount := (queueDb.filter (fun r => r.userId == userId)).length
  let appointmentCount :=
    (apptDb.filter (fun a =>
      a.userId == userId && a.startTime == today && a.startTime == tomorrow)).length
  let queueItems := queueDb.filter (fun r => r.userId == userId)
  let averageWaitTime : Int :=
    if queueItems.length > 0 then
      jsRoundDiv ((queueItems.map (fun item => item.estimatedWaitTime.getD 0)).sum)
        queueItems.length
    else 0
  let todayTransactions :=
    txDb.filter (fun t =>
      t.userId == userId && t.createdAt == today && t.createdAt == tomorrow)
  let todayRevenue := (todayTransactions.map (fun t => t.total)).sum
  { todayQueueCount := queueCount
    todayAppointmentCount := appointmentCount
    averageWaitTime := averageWaitTime
    todayRevenue := todayRevenue }

/-! ## Derived queue views used by the claims -/

/-- The tenant's non-terminal queue rows (status not `completed`). -/
def nonTerminalRows (db : List QueueRow) (userId : String) : List QueueRow :=
  db.filter (fun r => r.userId == userId && !(r.status == "completed"))

/-- Positions of the tenant's non-terminal queue rows. -/
def nonTerminalPositions (db : List QueueRow) (userId : String) : List Int :=
  (nonTerminalRows db userId).map (fun r => r.position)

/-- The list of positions is exactly the set `{1, …, N}`, `N` its length:
every entry lies in `[1, N]` and every value of `[1, N]` occurs. -/
def positionsDense (l : List Int) : Bool :=
  l.all (fun p => 1 ≤ p && p ≤ (l.length : Int)) &&
  (List.range l.length).all (fun k => l.contains ((k : Int) + 1))

/-! ## Helper lemmas about the position sort -/

theorem insertByPosition_length (r : QueueRow) (l : List QueueRow) :
    (insertByPosition r l).length = l.length + 1 := by
  induction l with
  | nil => rfl
  | cons x xs ih =>
    by_cases h : r.position ≤ x.position <;> simp [insertByPosition, h, ih]

theorem sortByPosition_length (l : List QueueRow) :
    (sortByPosition l).length = l.length := by
  induction l with
  | nil => rfl
  | cons x xs ih => simp [sortByPosition, insertByPosition_length, ih]

theorem mem_insertByPosition (r x : QueueRow) (l : List QueueRow) :
    x ∈ insertByPosition r l ↔ x = r ∨ x ∈ l := by
  induction l with
  | nil => simp [insertByPosition]
  | cons y ys ih =>
    by_cases h : r.position ≤ y.position
    · simp [insertByPosition, h, ih]
    · simp [insertByPosition, h, ih]
      tauto

theorem mem_sortByPosition (x : QueueRow) (l : List QueueRow) :
    x ∈ sortByPosition l ↔ x ∈ l := by
  induction l with
  | nil => simp [sortByPosition]
  | cons y ys ih => simp [sortByPosition, mem_insertByPosition, ih]

/-! ## Concrete fixtures used by witnesses and counterexamples -/

/-- A 30-minute haircut service of tenant `"A"`. -/
def svc30 : ServiceRow :=
  { id := 1, userId := "A", name := "Haircut", price := 2500, duration := 30, isActive := true }

/-- Waiting entry of tenant `"A"` at position 1. -/
def qWaiting1 : QueueRow :=
  { id := 1, userId := "A", customerId := 1, serviceId := 1, barber := none,
    position := 1, status := "waiting", estimatedWaitTime := some 0,
    joinedAt := 0, updatedAt := 0 }

/-- Waiting entry of tenant `"A"` at position 2. -/
def qWaiting2 : QueueRow :=
  { id := 2, userId := "A", customerId := 2, serviceId := 1, barber := none,
    position := 2, status := "waiting", estimatedWaitTime := some 30,
    joinedAt := 0, updatedAt := 0 }

/-- Waiting entry of tenant `"A"` at position 3. -/
def qWaiting3 : QueueRow :=
  { id := 3, userId := "A", customerId := 3, serviceId := 1, barber := none,
    position := 3, status := "waiting", estimatedWaitTime := some 60,
    joinedAt := 0, updatedAt := 0 }

/-! ## C4 — wait-time estimate -/

/-- C4: for a resolvable service of positive duration `d` and `k` entries in
status `waiting`, `calculateEstimatedWaitTime` returns `k * d`; it returns `0`
when no entry is waiting, and is never negative. -/
theorem calculateEstimatedWaitTime_correct (services : List ServiceRow)
    (queueData : List QueueRow) (serviceId : Int) (service : ServiceRow)
    (hfind : services.find? (fun s => s.id == serviceId) = some service)
    (hdur : 0 < service.duration) :
    calculateEstimatedWaitTime services queueData serviceId
      = ((queueData.filter (fun item => item.status == "waiting")).length : Int)
          * service.duration
    ∧ ((queueData.filter (fun item => item.status == "waiting")).length = 0 →
        calculateEstimatedWaitTime services queueData serviceId = 0)
    ∧ 0 ≤ calculateEstimatedWaitTime services queueData serviceId := by
  have hne : service.duration ≠ 0 := by omega
  have hval : calculateEstimatedWaitTime services queueData serviceId
      = ((queueData.filter (fun item => item.status == "waiting")).length : Int)
          * service.duration := by
    simp [calculateEstimatedWaitTime, hfind, hne]
  refine ⟨hval, ?_, ?_⟩
  · intro h0
    simp [hval, h0]
  · rw [hval]
    exact mul_nonneg (Int.ofNat_nonneg _) (le_of_lt hdur)

/-- Witness for C4 at a concrete input: one service of duration 30, two
waiting entries, estimate `2 * 30`. -/
theorem calculateEstimatedWaitTime_correct_witness :
    calculateEstimatedWaitTime [svc30] [qWaiting1, qWaiting2] 1
      = (([qWaiting1, qWaiting2].filter (fun item => item.status == "waiting")).length : Int)
          * svc30.duration
    ∧ (([qWaiting1, qWaiting2].filter (fun item => item.status == "waiting")).length = 0 →
        calculateEstimatedWaitTime [svc30] [qWaiting1, qWaiting2] 1 = 0)
    ∧ 0 ≤ calculateEstimatedWaitTime [svc30] [qWaiting1, qWaiting2] 1 :=
  calculateEstimatedWaitTime_correct [svc30] [qWaiting1, qWaiting2] 1 svc30
    (by decide) (by decide)

/-! ## C10 — POST /api/queue persists the payload verbatim -/

/-- C10: `addToQueue` stores the payload's `position` and `estimatedWaitTime`
verbatim — for every payload (`insertQueueSchema` adds no range refinement to
either field), the returned row carries exactly the payload's values and the
table gains exactly that row. -/
theorem addToQueue_persists_payload_verbatim (db : List QueueRow)
    (queueItem : InsertQueue) (userId : String) (newId : Nat) (now : Int) :
    (addToQueue db queueItem userId newId now).2.position = queueItem.position
    ∧ (addToQueue db queueItem userId newId now).2.estimatedWaitTime
        = queueItem.estimatedWaitTime
    ∧ (addToQueue db queueItem userId newId now).1
        = db ++ [(addToQueue db queueItem userId newId now).2] :=
  ⟨rfl, rfl, rfl⟩

/-! ## C9 — todayRevenue -/

/-- Midnight of an arbitrary concrete day, in epoch milliseconds. -/
def statsToday : Int := 1704096000000

/-- A pending 20.00 transaction of tenant `"A"` created during today. -/
def txPending20 : TransactionRow :=
  { id := 1, userId := "A", customerId := some 1, appointmentId := none,
    total := 2000, paymentMethod := "cash", status := "pending",
    createdAt := statsToday + 3600000 }

/-- A completed 35.00 transaction of tenant `"A"` created during today. -/
def txCompleted35 : TransactionRow :=
  { id := 2, userId := "A", customerId := some 2, appointmentId := none,
    total := 3500, paymentMethod := "card", status := "completed",
    createdAt := statsToday + 7200000 }

/-- C9: `getDashboardStats` computes `todayRevenue = 0` on every input — its
transaction filter demands `createdAt = today` and `createdAt = tomorrow`
simultaneously, which no row satisfies — so the spec's scenario (20.00 pending
+ 35.00 completed today) yields `0`, not `55.00`. -/
theorem getDashboardStats_todayRevenue_always_zero :
    (getDashboardStats [] [] [txPending20, txCompleted35] "A" statsToday).todayRevenue = 0
    ∧ ∀ (queueDb : List QueueRow) (apptDb : List AppointmentRow)
        (txDb : List TransactionRow) (userId : String) (today : Int),
        (getDashboardStats queueDb apptDb txDb userId today).todayRevenue = 0 := by
  have hgen : ∀ (queueDb : List QueueRow) (apptDb : List AppointmentRow)
      (txDb : List TransactionRow) (userId : String) (today : Int),
      (getDashboardStats queueDb apptDb txDb userId today).todayRevenue = 0 := by
    intro queueDb apptDb txDb userId today
    have hnil : txDb.filter (fun t =>
        t.userId == userId && t.createdAt == today && t.createdAt == (today + msPerDay))
        = [] := by
      rw [List.filter_eq_nil_iff]
      intro t _
      simp only [Bool.and_eq_true, beq_iff_eq, not_and]
      intro h12 h3
      rw [h12.2] at h3
      simp [msPerDay] at h3
    simp [getDashboardStats, hnil]
  exact ⟨hgen _ _ _ _ _, hgen⟩

/-! ## C5 — status transitions -/

/-- C5 counterexample: the pair `(waiting, completed)` is not in the queue edge
set `{waiting→in_progress, in_progress→completed}`, yet the status request
succeeds and changes the entry — no `InvalidTransition`, entity not left
unchanged. -/
theorem updateQueueStatus_skips_transition_check :
    qWaiting1.status = "waiting"
    ∧ (updateQueueStatus [qWaiting1] 1 "completed" 5).map (fun r => r.status)
        = ["completed"]
    ∧ updateQueueStatus [qWaiting1] 1 "completed" 5 ≠ [qWaiting1] := by
  refine ⟨rfl, rfl, ?_⟩
  decide

/-- C5 amended: no transition validation exists — `updateQueueStatus` and the
appointment status update store any requested status verbatim on the matching
row and always succeed; legality is enforced only by which actions the UI
offers. -/
theorem status_updates_store_any_status :
    (∀ (db : List QueueRow) (id : Nat) (st : String) (now : Int),
      (updateQueueStatus db id st now).map (fun r => (r.id, r.status))
        = db.map (fun r => (r.id, if r.id == id then st else r.status)))
    ∧ (∀ (db : List AppointmentRow) (id : Nat) (st : String) (now : Int),
      (updateAppointmentStatus db id st now).map (fun a => (a.id, a.status))
        = db.map (fun a => (a.id, if a.id == id then st else a.status))) := by
  constructor
  · intro db id st now
    rw [updateQueueStatus, List.map_map]
    refine List.map_congr_left ?_
    intro r _
    by_cases h : r.id = id
    · simp [h]
    · simp [h]
  · intro db id st now
    rw [updateAppointmentStatus, updateAppointment, List.map_map]
    refine List.map_congr_left ?_
    intro a _
    by_cases h : a.id = id
    · simp [h, applyAppointmentPatch]
    · simp [h]

/-! ## C6 — remove does not renumber -/

/-- C6 counterexample: removing the position-1 entry from a dense queue
`[1, 2, 3]` leaves the survivors at positions `[2, 3]` — not the claimed
decremented `[1, 2]`. -/
theorem removeFromQueue_does_not_decrement :
    (removeFromQueue [qWaiting1, qWaiting2, qWaiting3] 1).map (fun r => r.position)
      = [2, 3]
    ∧ (removeFromQueue [qWaiting1, qWaiting2, qWaiting3] 1).map (fun r => r.position)
        ≠ [1, 2] := by
  refine ⟨rfl, ?_⟩
  decide

/-- C6 amended: `removeFromQueue` deletes exactly the rows with the given id;
every other row survives verbatim — position included — so no position is ever
decremented. -/
theorem removeFromQueue_frame (db : List QueueRow) (id : Nat) (r : QueueRow) :
    r ∈ removeFromQueue db id ↔ r ∈ db ∧ r.id ≠ id := by
  simp [removeFromQueue, List.mem_filter]

/-! ## C1 — density invariant -/

/-- The walk-in admission payload the client builds for tenant `"A"` against
queue state `db`: position and estimate computed exactly as in part_004
(`queueData.length + 1` over all entries; `waiting count × duration`). -/
def walkInPayload (db : List QueueRow) : InsertQueue :=
  { customerId := 1
    serviceId := 1
    barber := none
    position := walkInPosition (getQueue db "A")
    status := none
    estimatedWaitTime := some (calculateEstimatedWaitTime [svc30] (getQueue db "A") 1) }

/-- Queue state after the first admission. -/
def c1Db1 : List QueueRow := (addToQueue [] (walkInPayload []) "A" 1 0).1

/-- Queue state after the second admission. -/
def c1Db2 : List QueueRow := (addToQueue c1Db1 (walkInPayload c1Db1) "A" 2 0).1

/-- Queue state after the third admission: dense positions `[1, 2, 3]`. -/
def c1Db3 : List QueueRow := (addToQueue c1Db2 (walkInPayload c1Db2) "A" 3 0).1

/-- C1 counterexample: after three admissions the tenant's non-terminal
positions are dense, but one `removeFromQueue` of the position-1 entry leaves
positions `{2, 3}` for 2 entries — the density invariant is not preserved. -/
theorem queue_density_not_preserved :
    positionsDense (nonTerminalPositions c1Db3 "A") = true
    ∧ positionsDense (nonTerminalPositions (removeFromQueue c1Db3 1) "A") = false := by
  refine ⟨rfl, rfl⟩

/-- C1 amended: no operation renumbers — after `removeFromQueue` the tenant's
non-terminal positions are exactly the old ones minus the removed row's, each
kept verbatim, so density survives only when the removed entry held the
greatest position. -/
theorem nonTerminalPositions_after_remove (db : List QueueRow) (u : String) (id : Nat) :
    nonTerminalPositions (removeFromQueue db id) u
      = ((nonTerminalRows db u).filter (fun r => !(r.id == id))).map (fun r => r.position) := by
  rw [nonTerminalPositions, nonTerminalRows, nonTerminalRows, removeFromQueue,
    List.filter_filter, List.filter_filter]
  congr 1
  refine List.filter_congr ?_
  intro r _
  exact Bool.and_comm _ _

/-! ## C2 — tenant isolation -/

/-- A queue entry owned by tenant `"B"`. -/
def qRowTenantB : QueueRow :=
  { id := 7, userId := "B", customerId := 1, serviceId := 1, barber := none,
    position := 1, status := "waiting", estimatedWaitTime := some 0,
    joinedAt := 0, updatedAt := 0 }

/-- C2 counterexample: tenant `"A"`'s authenticated position request against
row id 7 rewrites tenant `"B"`'s row (position 1 → 9): cross-tenant mutation
is possible. -/
theorem cross_tenant_mutation_possible :
    (putQueuePosition [qRowTenantB] "A" 7 9 5).map (fun r => (r.userId, r.position))
      = [("B", 9)]
    ∧ ("A" : String) ≠ "B" := by
  refine ⟨rfl, ?_⟩
  decide

/-- C2 amended: tenant scoping exists only on inserts (the caller's `userId`
is stamped onto new rows) and list reads (`getQueue` returns only the tenant's
rows); the id-keyed mutations ignore the caller's tenant entirely — their
result is identical for any two callers. -/
theorem tenant_scoping_reads_inserts_only :
    (∀ (db : List QueueRow) (item : InsertQueue) (u : String) (newId : Nat) (now : Int),
      ((addToQueue db item u newId now).2).userId = u)
    ∧ (∀ (db : List QueueRow) (u : String) (r : QueueRow), r ∈ getQueue db u → r.userId = u)
    ∧ (∀ (db : List QueueRow) (u u' : String) (id : Nat) (pos : Int) (now : Int),
        putQueuePosition db u id pos now = putQueuePosition db u' id pos now)
    ∧ (∀ (db : List QueueRow) (u u' : String) (id : Nat) (st : String) (now : Int),
        putQueueStatus db u id st now = putQueueStatus db u' id st now)
    ∧ (∀ (db : List QueueRow) (u u' : String) (id : Nat),
        deleteQueueRoute db u id = deleteQueueRoute db u' id) := by
  refine ⟨fun _ _ _ _ _ => rfl, ?_, fun _ _ _ _ _ _ => rfl,
    fun _ _ _ _ _ _ => rfl, fun _ _ _ _ => rfl⟩
  intro db u r hr
  have hmem := (mem_sortByPosition r _).mp hr
  have hr2 := List.mem_filter.mp hmem
  simpa using hr2.2

/-- Witness for the C2 amended theorem: instantiates the `getQueue` scoping
conjunct at a singleton state, discharging the membership hypothesis. -/
theorem tenant_scoping_reads_inserts_only_witness :
    qWaiting1.userId = "A" :=
  tenant_scoping_reads_inserts_only.2.1 [qWaiting1] "A" qWaiting1 (by decide)

/-! ## C3 — admission position -/

/-- A completed (terminal) entry of tenant `"A"`. -/
def qCompleted1 : QueueRow :=
  { id := 1, userId := "A", customerId := 1, serviceId := 1, barber := none,
    position := 1, status := "completed", estimatedWaitTime := some 0,
    joinedAt := 0, updatedAt := 0 }

/-- C3 counterexample: with one completed entry in the queue the client
assigns the next walk-in position 2, while the claim's
`N + 1 = (non-terminal count) + 1` is 1. -/
theorem walkInPosition_counts_terminal_entries :
    walkInPosition (getQueue [qCompleted1] "A") = 2
    ∧ ((nonTerminalRows [qCompleted1] "A").length : Int) + 1 = 1
    ∧ walkInPosition (getQueue [qCompleted1] "A")
        ≠ ((nonTerminalRows [qCompleted1] "A").length : Int) + 1 := by
  refine ⟨rfl, rfl, ?_⟩
  decide

/-- C3 amended: the admission position is `(count of ALL of the tenant's queue
entries, completed ones included) + 1` — the `length ? length + 1 : 1`
expression collapses to `length + 1` in both branches. -/
theorem walkInPosition_total_count (db : List QueueRow) (u : String) :
    walkInPosition (getQueue db u)
      = ((db.filter (fun r => r.userId == u)).length : Int) + 1 := by
  rw [walkInPosition, getQueue, sortByPosition_length]
  rcases Nat.eq_zero_or_pos (db.filter (fun r => r.userId == u)).length with h | h
  · simp [h]
  · have hne : ((db.filter (fun r => r.userId == u)).length != 0) = true := by
      simpa using Nat.pos_iff_ne_zero.mp h
    simp [hne]

/-! ## C7 — reposition -/

/-- C7 counterexample: requested position 99 is far outside `[1, 3]` (the
non-terminal count is 3), yet the call succeeds, writes 99 onto the target
row, and shifts nothing; no `InvalidPosition`, no `NotFound` path exists. -/
theorem updateQueuePosition_unvalidated :
    (updateQueuePosition [qWaiting1, qWaiting2, qWaiting3] 1 99 5).map (fun r => r.position)
      = [99, 2, 3]
    ∧ ((nonTerminalRows [qWaiting1, qWaiting2, qWaiting3] "A").length : Int) = 3
    ∧ ¬((99 : Int) ≤ 3) := by
  refine ⟨rfl, rfl, ?_⟩
  decide

/-- C7 amended: `updateQueuePosition` unconditionally writes the requested
position onto the rows with the given id — regardless of the owner or of any
range — and leaves every other row's position (and every row's id, owner and
status) untouched: no shifting between old and new rank. -/
theorem updateQueuePosition_semantics (db : List QueueRow) (id : Nat) (pos : Int)
    (now : Int) :
    (updateQueuePosition db id pos now).map (fun r => (r.id, r.userId, r.position, r.status))
      = db.map (fun r => (r.id, r.userId, (if r.id == id then pos else r.position), r.status)) := by
  rw [updateQueuePosition, List.map_map]
  refine List.map_congr_left ?_
  intro r _
  by_cases h : r.id = id
  · simp [h]
  · simp [h]

/-! ## C8 — endTime derivation -/

/-- A booking payload whose `endTime` was overridden to 10 minutes after
`startTime`, for a resolvable 30-minute service. -/
def apptPayloadOverridden : InsertAppointment :=
  { customerId := 1, serviceId := 1, barber := none,
    startTime := 0, endTime := 600000, status := none, notes := none }

/-- C8 counterexample: the server persists the payload's `endTime` verbatim —
the stored appointment has `endTime - startTime` = 10 minutes although the
resolvable service lasts 30 minutes. -/
theorem createAppointment_keeps_mismatched_endTime :
    [svc30].find? (fun s => s.id == apptPayloadOverridden.serviceId) = some svc30
    ∧ (createAppointment [] apptPayloadOverridden "A" 1 0).2.endTime
        - (createAppointment [] apptPayloadOverridden "A" 1 0).2.startTime
        = 600000
    ∧ (600000 : Int) ≠ svc30.duration * 60000 := by
  refine ⟨rfl, rfl, ?_⟩
  decide

/-- C8 amended: `endTime = startTime + service.duration` holds for the value
the client's change handlers derive, and only there — `createAppointment`
stores the payload's `startTime`/`endTime` verbatim, enforcing no relation
between them. -/
theorem endTime_derived_client_side_only :
    (∀ startTime duration : Int,
      derivedEndTime startTime duration - startTime = duration * 60000)
    ∧ (∀ (db : List AppointmentRow) (a : InsertAppointment) (u : String)
        (newId : Nat) (now : Int),
      (createAppointment db a u newId now).2.startTime = a.startTime
      ∧ (createAppointment db a u newId now).2.endTime = a.endTime) := by
  refine ⟨fun s d => ?_, fun _ _ _ _ _ => ⟨rfl, rfl⟩⟩
  rw [derivedEndTime]
  omega
